import Mathlib

/-
  Verification development for the Vikara voice-agent repository.

  The definitions below are shallow embeddings of the client's voice-session
  code (`VoiceAssistant` component, both the variant in `src/unnamed/part_004`
  and the one in `src/components/VoiceAssistant.tsx`), of the client calendar
  service (`src/services/backendCalendar.ts`) and of the server calendar
  module (`src/server/src/calendar.ts`).  Mutable refs become explicit state
  records, callback side effects become returned action/trace lists, and
  `async` exceptions become `Except String`.
-/

namespace Vikara

/-! ## Output pipeline: the playback scheduling cursor

Model of the audio-output branch of `onmessage` (part_004 lines 294-310 and
VoiceAssistant.tsx lines 217-220):

    const currentTime = ctx.currentTime;
    if (nextStartTimeRef.current < currentTime) {
      nextStartTimeRef.current = currentTime;
    }
    source.start(nextStartTimeRef.current);
    nextStartTimeRef.current += buffer.duration;

Times and durations are rationals.  `scheduleChunk cursor now dur` returns the
scheduled start time of the chunk and the updated cursor. -/

def scheduleChunk (cursor now dur : ℚ) : ℚ × ℚ :=
  let start := if cursor < now then now else cursor
  (start, start + dur)

/-- Run the scheduling step over a list of arriving chunks, each given as
(arrival time = audio-context `currentTime` at handling, duration).
Returns the list of scheduled start times and the final cursor. -/
def scheduleChunks : ℚ → List (ℚ × ℚ) → List ℚ × ℚ
  | cursor, [] => ([], cursor)
  | cursor, (now, dur) :: rest =>
    let step := scheduleChunk cursor now dur
    let recur := scheduleChunks step.2 rest
    (step.1 :: recur.1, recur.2)

/-! ## Session teardown (part_004 `stopSession`, lines 99-126)

Resources held across callbacks are modelled by handles (`Nat`); the actual
release side effects (`close()`, `stop()`) are modelled as an emitted list of
release actions, so that "released twice" is observable. -/

inductive ReleaseAction where
  | closeSession (h : Nat)
  | closeContext (h : Nat)
  | stopSource (h : Nat)
  | stopTrack (h : Nat)
  | disconnectProcessor (h : Nat)
deriving DecidableEq, Repr

/-- Resource state of the part_004 `VoiceAssistant`: `sessionRef`,
`audioContextRef`, `outputAudioContextRef`, `sourcesRef`. -/
structure SessionRes where
  session : Option Nat
  inputCtx : Option Nat
  outputCtx : Option Nat
  sources : List Nat
deriving DecidableEq, Repr

/-- part_004 `stopSession`: close the session, close both audio contexts,
stop every scheduled source, null/clear all refs. -/
def stopSession (st : SessionRes) : SessionRes × List ReleaseAction :=
  let a1 := match st.session with
    | some h => [ReleaseAction.closeSession h]
    | none => []
  let a2 := match st.inputCtx with
    | some h => [ReleaseAction.closeContext h]
    | none => []
  let a3 := match st.outputCtx with
    | some h => [ReleaseAction.closeContext h]
    | none => []
  let a4 := st.sources.map ReleaseAction.stopSource
  (⟨none, none, none, []⟩, a1 ++ a2 ++ a3 ++ a4)

/-- Resource state of the `VoiceAssistant.tsx` variant: it additionally keeps
`streamRef` (a microphone stream with its tracks) and `processorRef`, but
tracks no set of scheduled sources. -/
structure SessionResTsx where
  stream : Option (List Nat)
  processor : Option Nat
  session : Option Nat
  inputCtx : Option Nat
  outputCtx : Option Nat
deriving DecidableEq, Repr

/-- Variant `stopSession` of VoiceAssistant.tsx (lines 72-98): stop every stream track,
disconnect the processor, close the session, close both audio contexts,
null all refs. -/
def stopSessionTsx (st : SessionResTsx) : SessionResTsx × List ReleaseAction :=
  let a0 := match st.stream with
    | some tracks => tracks.map ReleaseAction.stopTrack
    | none => []
  let a1 := match st.processor with
    | some h => [ReleaseAction.disconnectProcessor h]
    | none => []
  let a2 := match st.session with
    | some h => [ReleaseAction.closeSession h]
    | none => []
  let a3 := match st.inputCtx with
    | some h => [ReleaseAction.closeContext h]
    | none => []
  let a4 := match st.outputCtx with
    | some h => [ReleaseAction.closeContext h]
    | none => []
  (⟨none, none, none, none, none⟩, a0 ++ a1 ++ a2 ++ a3 ++ a4)

/-! ## Session exit paths (part_004)

The three exit triggers and what the part_004 code runs on each:
user stop (`onClick` when active) runs `stopSession`; `onerror` runs
`stopSession` (after setting the error message); `onclose` (remote close,
lines 275-278) only logs and sets the status to "Disconnected" - it does not
run `stopSession`. -/

inductive ExitEvent where
  | userStop
  | transportError
  | remoteClose
deriving DecidableEq, Repr

def handleExit (st : SessionRes) : ExitEvent → SessionRes × List ReleaseAction
  | ExitEvent.userStop => stopSession st
  | ExitEvent.transportError => stopSession st
  | ExitEvent.remoteClose => (st, [])

/-- A live session state with one still-scheduled audio source, used as a
concrete input for the exit-path analysis. -/
def stLive : SessionRes := ⟨some 1, some 2, some 3, [7]⟩

/-! ## Spoken-email normalization (part_004 `normalizeEmail`, lines 30-45)

The JS code is a chain of global regex replaces.  We embed strings as
`List Char` and implement each replace pass faithfully:

    let s = String(raw ?? "").trim().toLowerCase();
    s = s.replace(/\s+at\s+/g, "@").replace(/\s+dot\s+/g, ".")
         .replace(/\s+underscore\s+/g, "_").replace(/\s+dash\s+/g, "-")
         .replace(/\s+hyphen\s+/g, "-");
    s = s.replace(/\bat\b/g, "@").replace(/\bdot\b/g, ".");
    s = s.replace(/\s+/g, "");
    s = s.replace(/^[^\w]+/, "").replace(/[^\w]+$/, "");
-/

/-- JS regex `\s` on the ASCII range (the inputs here are ASCII). -/
def isJsSpace (c : Char) : Bool :=
  c = ' ' || c = '\t' || c = '\n' || c = '\r' || c = '\x0b' || c = '\x0c'

/-- JS regex word character `\w`: ASCII letters, digits, underscore. -/
def isWordChar (c : Char) : Bool :=
  c.isAlphanum || c = '_'

/-- Split a character list into maximal runs of whitespace / non-whitespace
characters (every run is nonempty, adjacent runs alternate). -/
def runs (l : List Char) : List (List Char) :=
  l.foldr
    (fun c acc =>
      match acc with
      | [] => [[c]]
      | [] :: rest => [c] :: rest
      | (d :: ds) :: rest =>
        if isJsSpace c = isJsSpace d then (c :: d :: ds) :: rest
        else [c] :: (d :: ds) :: rest)
    []

/-- Global replace of the regex `\s+TOK\s+` by the single character `rep`,
operating on the run decomposition of the string.  A match needs a whitespace
run, then exactly the token as a full non-space run (a letter directly after
the token would make the trailing `\s+` fail, and the token cannot start
mid-run because `\s+` must end right before it), then a whitespace run, which
the greedy trailing `\s+` consumes entirely.  Scanning resumes after the
match, as the JS global replace does. -/
def replaceSpacedTok (tok : List Char) (rep : Char) : List (List Char) → List Char
  | [] => []
  | [r] => r
  | [r1, r2] => r1 ++ r2
  | r1 :: r2 :: r3 :: rest =>
    if r1 ≠ [] ∧ r1.all isJsSpace ∧ r2 = tok ∧ r3 ≠ [] ∧ r3.all isJsSpace then
      rep :: replaceSpacedTok tok rep rest
    else
      r1 ++ replaceSpacedTok tok rep (r2 :: r3 :: rest)

/-- One pass `s.replace(/\s+TOK\s+/g, rep)`. -/
def replaceSpaced (tok : String) (rep : Char) (l : List Char) : List Char :=
  replaceSpacedTok tok.toList rep (runs l)

/-- Word-boundary test for the position right after a matched token:
end of string or a non-word character. -/
def boundaryNonWord : List Char → Bool
  | [] => true
  | d :: _ => !(isWordChar d)

/-- Global replace `s.replace(/\bat\b/g, "@")`.  `prev` records whether the
character before the scan position is a word character (so that `\b` holds
exactly when `prev` is false, the token being letters). -/
def replaceWordAt : Bool → List Char → List Char
  | _, [] => []
  | prev, 'a' :: 't' :: rest =>
    if !prev && boundaryNonWord rest then
      '@' :: replaceWordAt (isWordChar 't') rest
    else
      'a' :: replaceWordAt (isWordChar 'a') ('t' :: rest)
  | _, c :: cs => c :: replaceWordAt (isWordChar c) cs

/-- Global replace `s.replace(/\bdot\b/g, ".")`. -/
def replaceWordDot : Bool → List Char → List Char
  | _, [] => []
  | prev, 'd' :: 'o' :: 't' :: rest =>
    if !prev && boundaryNonWord rest then
      '.' :: replaceWordDot (isWordChar 't') rest
    else
      'd' :: replaceWordDot (isWordChar 'd') ('o' :: 't' :: rest)
  | _, c :: cs => c :: replaceWordDot (isWordChar c) cs

/-- JS `String.prototype.trim` (ASCII whitespace). -/
def jsTrim (l : List Char) : List Char :=
  ((l.dropWhile isJsSpace).reverse.dropWhile isJsSpace).reverse

/-- part_004 `normalizeEmail(raw)`.  The JS argument is `unknown` and is first
coerced by `String(raw ?? "")`; an absent argument is modelled as `none`. -/
def normalizeEmail (raw : Option String) : String :=
  let s0 := (jsTrim (raw.getD "").toList).map Char.toLower
  let s1 := replaceSpaced "at" '@' s0
  let s2 := replaceSpaced "dot" '.' s1
  let s3 := replaceSpaced "underscore" '_' s2
  let s4 := replaceSpaced "dash" '-' s3
  let s5 := replaceSpaced "hyphen" '-' s4
  let s6 := replaceWordAt false s5
  let s7 := replaceWordDot false s6
  let s8 := s7.filter (fun c => !(isJsSpace c))
  let s9 := s8.dropWhile (fun c => !(isWordChar c))
  let s10 := (s9.reverse.dropWhile (fun c => !(isWordChar c))).reverse
  String.mk s10

/-- part_004 `isValidEmail` (line 47-49): the regex
`/^[^\s@]+@[^\s@]+\.[^\s@]+$/` matches exactly the strings of the form
`local@domain` where `local` is the (nonempty) part before the first `@`,
`domain` is nonempty, contains no further `@`, neither part contains
whitespace, and `domain` contains a `.` with at least one character on each
side. -/
def isValidEmail (email : String) : Bool :=
  let s := email.toList
  let localPart := s.takeWhile (fun c => c ≠ '@')
  match s.dropWhile (fun c => c ≠ '@') with
  | [] => false
  | _ :: domain =>
    !localPart.isEmpty && localPart.all (fun c => !(isJsSpace c)) &&
    !domain.isEmpty && domain.all (fun c => !(isJsSpace c) && c ≠ '@') &&
    (List.range domain.length).any
      (fun i => decide (1 ≤ i) && decide (i + 2 ≤ domain.length) &&
        (domain.get? i == some '.'))

/-! ## Tool-call dispatcher (part_004 `onmessage`, lines 317-391)

The dispatcher runs in either `sandbox` or `real` mode.  Tool arguments are a
JS object; the fields the code reads are modelled as optional strings, a JS
falsy field (`undefined`, `null` or `""`) being `none` or `some ""`. -/

inductive Mode where
  | sandbox
  | real
deriving DecidableEq, Repr

/-- Argument object of a function call; covers the fields read by
`pickMissingScheduleFields`, `pickMissingFreeBusyFields` and the schedule
payload. -/
structure ScheduleArgs where
  title : Option String := none
  attendeeEmail : Option String := none
  attendeeName : Option String := none
  startIso : Option String := none
  endIso : Option String := none
  timezone : Option String := none
  description : Option String := none
  timeMin : Option String := none
  timeMax : Option String := none
deriving DecidableEq, Repr

/-- JS truth test `!x` for an optional string field. -/
def jsFalsy : Option String → Bool
  | none => true
  | some s => s.isEmpty

/-- JS `String(x)` on a field used after a non-falsy check. -/
def jsString : Option String → String
  | some s => s
  | none => "undefined"

/-- part_004 `pickMissingScheduleFields` (lines 51-58). -/
def pickMissingScheduleFields (args : ScheduleArgs) : List String :=
  (if jsFalsy args.title then ["title"] else []) ++
  (if jsFalsy args.attendeeEmail then ["attendeeEmail"] else []) ++
  (if jsFalsy args.startIso then ["startIso"] else []) ++
  (if jsFalsy args.endIso then ["endIso"] else [])

/-- part_004 `pickMissingFreeBusyFields` (lines 60-65). -/
def pickMissingFreeBusyFields (args : ScheduleArgs) : List String :=
  (if jsFalsy args.timeMin then ["timeMin"] else []) ++
  (if jsFalsy args.timeMax then ["timeMax"] else [])

/-- Opaque JSON payload returned by the backend service, represented by its
serialized text. -/
abbrev BackendJson := String

/-- A network call made to the Calendar Service backend. -/
inductive SvcCall where
  | freeBusy (timeMin timeMax : String)
  | schedule (payload : ScheduleArgs)
deriving DecidableEq, Repr

/-- Outcomes of the two backend operations the voice dispatcher may invoke:
`BackendCalendar.freeBusy` and `BackendCalendar.schedule`, each either
returning a JSON payload or throwing an exception with a message. -/
structure ToolCallEnv where
  freeBusyResp : Except String BackendJson
  scheduleResp : Except String BackendJson
deriving Repr

/-- The response value the dispatcher sends back for one function call.
Constructors mirror the distinct object literals in the code. -/
inductive ToolResponse where
  /-- the initial `{error: "Unknown Error"}`, kept when no branch assigns -/
  | unknownError
  /-- sandbox `{isFree: true, busy: []}` -/
  | sandboxFreeBusy
  /-- sandbox `{ok: true, note: "Sandbox Booking Confirmed"}` -/
  | sandboxBooking
  /-- an `{error: msg}` object (missing free/busy fields, or the catch) -/
  | errorMsg (msg : String)
  /-- an `{ok: false, error: msg}` object (schedule validation failures) -/
  | okFalseError (msg : String)
  /-- passthrough of a backend JSON payload -/
  | backend (j : BackendJson)
deriving DecidableEq, Repr

/-- Sandbox branch of the dispatcher (lines 332-336): canned responses,
no backend access. -/
def runToolSandbox (name : String) : ToolResponse :=
  if name = "check_availability" then ToolResponse.sandboxFreeBusy
  else if name = "schedule_meeting" then ToolResponse.sandboxBooking
  else ToolResponse.unknownError

/-- Real-mode branch of the dispatcher (lines 337-379), as it executes inside
the `try`: the `Except.error` outcome is an exception escaping to the `catch`.
The second component lists the backend calls performed. -/
def runToolReal (organizerConnected : Bool) (env : ToolCallEnv)
    (name : String) (args : ScheduleArgs) :
    Except String ToolResponse × List SvcCall :=
  if name = "check_availability" then
    let missing := pickMissingFreeBusyFields args
    if missing ≠ [] then
      (Except.ok (ToolResponse.errorMsg
        ("Missing required fields: " ++ String.intercalate ", " missing)), [])
    else
      let call := SvcCall.freeBusy (jsString args.timeMin) (jsString args.timeMax)
      match env.freeBusyResp with
      | Except.ok j => (Except.ok (ToolResponse.backend j), [call])
      | Except.error m => (Except.error m, [call])
  else if name = "schedule_meeting" then
    if organizerConnected = false then
      (Except.error "Calendar not connected", [])
    else
      let missing := pickMissingScheduleFields args
      if missing ≠ [] then
        (Except.ok (ToolResponse.okFalseError
          ("Missing required fields: " ++ String.intercalate ", " missing)), [])
      else
        let cleanedEmail := normalizeEmail args.attendeeEmail
        if isValidEmail cleanedEmail = false then
          (Except.ok (ToolResponse.okFalseError
            "Invalid email. Please repeat slowly like: name at domain dot com."), [])
        else
          let payload := { args with attendeeEmail := some cleanedEmail }
          match env.scheduleResp with
          | Except.ok j => (Except.ok (ToolResponse.backend j), [SvcCall.schedule payload])
          | Except.error m => (Except.error m, [SvcCall.schedule payload])
  else (Except.ok ToolResponse.unknownError, [])

/-- Full handling of one function call: mode split, `try`, and the `catch`
that turns any exception into `{error: e.message || "Tool failed"}`. -/
def handleFunctionCall (mode : Mode) (organizerConnected : Bool)
    (env : ToolCallEnv) (name : String) (args : ScheduleArgs) :
    ToolResponse × List SvcCall :=
  if mode = Mode.sandbox then (runToolSandbox name, [])
  else
    match runToolReal organizerConnected env name args with
    | (Except.ok r, calls) => (r, calls)
    | (Except.error m, calls) =>
      (ToolResponse.errorMsg (if m = "" then "Tool failed" else m), calls)

/-- One function call inside a `toolCall` message. -/
structure FunctionCall where
  id : String
  name : String
  args : ScheduleArgs
deriving DecidableEq, Repr

/-- One `sendToolResponse` payload entry `{id, name, response}`. -/
structure SentToolResult where
  id : String
  name : String
  response : ToolResponse
deriving DecidableEq, Repr

/-- The `for (const fc of message.toolCall.functionCalls)` loop: handle each
call in order, sending one tool result per call; also collect the backend
calls made. -/
def onToolCallMessage (mode : Mode) (organizerConnected : Bool)
    (env : ToolCallEnv) : List FunctionCall → List SentToolResult × List SvcCall
  | [] => ([], [])
  | fc :: rest =>
    let this := handleFunctionCall mode organizerConnected env fc.name fc.args
    let recur := onToolCallMessage mode organizerConnected env rest
    (⟨fc.id, fc.name, this.1⟩ :: recur.1, this.2 ++ recur.2)

/-! ## Server calendar module (src/server/src/calendar.ts)

`freeBusyQuery` wraps the Google free/busy API: the busy intervals returned by
Google are a parameter here.  `scheduleMeeting` checks availability first and
only inserts when the window is free; the Google insert outcome (event id,
html link) and the Meet-link polling result are parameters, since claims here
concern only the conflict short-circuit. -/

/-- One busy interval as returned by the free/busy query
(`start`/`end` timestamps). -/
structure BusySlot where
  start : String
  stop : String
deriving DecidableEq, Repr

/-- Result of `freeBusyQuery`: `{busy, isFree: busy.length === 0}`. -/
structure FreeBusyOut where
  busy : List BusySlot
  isFree : Bool
deriving DecidableEq, Repr

def freeBusyQuery (busy : List BusySlot) : FreeBusyOut :=
  ⟨busy, busy.isEmpty⟩

/-- Result of the server `scheduleMeeting`. -/
inductive ServerScheduleResult where
  /-- `{ok: false, reason: "conflict", busy}` -/
  | conflict (busy : List BusySlot)
  /-- `{ok: true, eventId, htmlLink, meetLink}` -/
  | success (eventId : String) (htmlLink : Option String) (meetLink : Option String)
deriving DecidableEq, Repr

/-- Server `scheduleMeeting` (calendar.ts lines 59-125): free/busy check, then
insert.  The boolean records whether `cal.events.insert` was called. -/
def scheduleMeeting (fbBusy : List BusySlot) (insertEventId : Option String)
    (insertHtmlLink : Option String) (polledMeetLink : Option String) :
    ServerScheduleResult × Bool :=
  let fb := freeBusyQuery fbBusy
  if fb.isFree = false then
    (ServerScheduleResult.conflict fb.busy, false)
  else
    (ServerScheduleResult.success (insertEventId.getD "") insertHtmlLink
      polledMeetLink, true)

/-! ## Client calendar service (src/services/backendCalendar.ts) -/

/-- Parsed JSON body of the `/api/calendar/schedule` response as the client
reads it: the fields `BackendCalendar.schedule` inspects. -/
structure ScheduleHttpData where
  ok : Bool
  error : Option String := none
  reason : Option String := none
  busy : List BusySlot := []
  eventId : Option String := none
deriving DecidableEq, Repr

/-- The Express route `res.json(out)` serialization of a server schedule
result, as seen by the client. -/
def serverResultToHttp : ServerScheduleResult → ScheduleHttpData
  | ServerScheduleResult.conflict busy =>
    { ok := false, reason := some "conflict", busy := busy }
  | ServerScheduleResult.success eventId _ _ =>
    { ok := true, eventId := some eventId }

namespace BackendCalendar

/-- Client `BackendCalendar.schedule` (lines 124-139) after the HTTP round trip:
`if (!data.ok) throw new Error(data.error || "Scheduling failed"); return
data;`.  `Except.error` is the thrown exception's message. -/
def schedule (data : ScheduleHttpData) : Except String ScheduleHttpData :=
  if data.ok = false then
    Except.error
      (match data.error with
        | some e => if e = "" then "Scheduling failed" else e
        | none => "Scheduling failed")
  else Except.ok data

/-- A calendar event as the client's `BackendEvent` interface reads it. -/
structure BackendEvent where
  id : String
  summary : String
  startDateTime : String
  endDateTime : String
  htmlLink : Option String := none
deriving DecidableEq, Repr

/-- What the `fetch` inside `listEvents` can produce: a rejected promise, or
an HTTP response whose body then parses (with or without an `events` field)
or fails to parse. -/
inductive FetchOutcome where
  | networkError (msg : String)
  | response (ok : Bool) (jsonError : Option String)
      (events : Option (List BackendEvent))
deriving DecidableEq, Repr

/-- The `try` body of `BackendCalendar.listEvents` (lines 141-158):
`if (!res.ok) throw ...; const data = await res.json(); return data.events
|| [];`.  `jsonError = some m` models `res.json()` rejecting. -/
def listEventsTry (o : FetchOutcome) : Except String (List BackendEvent) :=
  match o with
  | FetchOutcome.networkError m => Except.error m
  | FetchOutcome.response ok jsonError events =>
    if ok = false then Except.error "Failed to fetch events"
    else
      match jsonError with
      | some m => Except.error m
      | none => Except.ok (events.getD [])

/-- Client `BackendCalendar.listEvents` with its `catch` returning `[]`. -/
def listEvents (o : FetchOutcome) : List BackendEvent :=
  match listEventsTry o with
  | Except.ok l => l
  | Except.error _ => []

end BackendCalendar

/-! ## OAuth completion polling (part_004 `connectOrganizerCalendar`,
lines 128-151)

    const start = Date.now();
    while (Date.now() - start < 60000) {
      await new Promise((r) => setTimeout(r, 1500));
      const s = await BackendCalendar.authStatus();
      if (s.connected) { ...; return; }
    }
    throw new Error("Timeout waiting for Google Login.");

The status responses are a function of the poll index; each iteration costs
the 1.5 s sleep (the status round trip itself is folded into it).  `elapsed`
is the milliseconds spent when the `while` condition is tested, `i` the index
of the next poll. -/

def pollTimeoutMsg : String := "Timeout waiting for Google Login."

def pollLoop (statuses : Nat → Bool) (elapsed i : Nat) : Except String Nat :=
  if h : elapsed < 60000 then
    if statuses i then Except.ok i
    else pollLoop statuses (elapsed + 1500) (i + 1)
  else Except.error pollTimeoutMsg
termination_by 60000 - elapsed
decreasing_by omega

/-- Observable outcome of `connectOrganizerCalendar`: either the success path
(status set to connected) or the `catch` showing the error message. -/
inductive ConnectOutcome where
  | connected
  | errorShown (msg : String)
deriving DecidableEq, Repr

def connectOrganizerCalendar (statuses : Nat → Bool) : ConnectOutcome :=
  match pollLoop statuses 0 0 with
  | Except.ok _ => ConnectOutcome.connected
  | Except.error m => ConnectOutcome.errorShown m

/-! ## Concrete inputs used by counterexamples and witnesses -/

/-- Backend outcomes: free/busy succeeds, schedule succeeds. -/
def envOk : ToolCallEnv := ⟨Except.ok "fbjson", Except.ok "schedjson"⟩

/-- Backend outcomes: free/busy succeeds, schedule throws an exception with
message "boom". -/
def envBoom : ToolCallEnv := ⟨Except.ok "fbjson", Except.error "boom"⟩

/-- A complete, valid `schedule_meeting` argument object. -/
def argsFull : ScheduleArgs :=
  { title := some "Sync"
    attendeeEmail := some "vik@example.com"
    startIso := some "2026-01-06T17:00:00+05:30"
    endIso := some "2026-01-06T17:30:00+05:30" }

/-- The same arguments with `attendeeEmail` absent. -/
def argsMissingEmail : ScheduleArgs :=
  { title := some "Sync"
    startIso := some "2026-01-06T17:00:00+05:30"
    endIso := some "2026-01-06T17:30:00+05:30" }

/-- The same arguments with an unusable spoken email. -/
def argsBadEmail : ScheduleArgs :=
  { argsFull with attendeeEmail := some "not an email" }

/-- A nonempty busy list for the requested window. -/
def busy1 : List BusySlot :=
  [⟨"2026-01-06T17:00:00+05:30", "2026-01-06T17:30:00+05:30"⟩]

/-! ## Theorems -/

/-- C1: each decoded chunk is scheduled to start at
`max(scheduling cursor, audio-context currentTime)` and the cursor then
advances by exactly the chunk's duration; hence three chunks of durations
`d1, d2, d3`, each arriving no later than the cursor of its arrival moment,
start at `cursor`, `cursor + d1`, `cursor + d1 + d2`, back-to-back in arrival
order. -/
theorem c1_output_scheduling_cursor :
    (∀ cursor now dur : ℚ,
      scheduleChunk cursor now dur = (max cursor now, max cursor now + dur)) ∧
    (∀ cursor n1 n2 n3 d1 d2 d3 : ℚ,
      n1 ≤ cursor → n2 ≤ cursor + d1 → n3 ≤ cursor + d1 + d2 →
      (scheduleChunks cursor [(n1, d1), (n2, d2), (n3, d3)]).1 =
        [cursor, cursor + d1, cursor + d1 + d2]) := by
  constructor
  · intro cursor now dur
    rcases lt_or_le cursor now with h | h
    · simp [scheduleChunk, if_pos h, max_eq_right h.le]
    · simp [scheduleChunk, if_neg (not_lt.mpr h), max_eq_left h]
  · intro cursor n1 n2 n3 d1 d2 d3 h1 h2 h3
    simp only [scheduleChunks, scheduleChunk]
    rw [if_neg (not_lt.mpr h1), if_neg (not_lt.mpr h2), if_neg (not_lt.mpr h3)]

/-- Witness for C1 at concrete inputs: cursor 2, three unit-duration chunks
all arriving at time 0. -/
theorem c1_witness :
    (scheduleChunks 2 [((0 : ℚ), 1), (0, 1), (0, 1)]).1 =
      [2, 2 + 1, 2 + 1 + 1] :=
  c1_output_scheduling_cursor.2 2 0 0 0 1 1 1 (by norm_num) (by norm_num)
    (by norm_num)

/-- C7: the teardown routine is idempotent in both variants: running
`stopSession` on an already-torn-down state releases nothing (no close/stop
action is emitted) and leaves the state unchanged. -/
theorem c7_stop_idempotent :
    (∀ st : SessionRes, stopSession (stopSession st).1 = ((stopSession st).1, [])) ∧
    (∀ st : SessionResTsx,
      stopSessionTsx (stopSessionTsx st).1 = ((stopSessionTsx st).1, [])) :=
  ⟨fun _ => rfl, fun _ => rfl⟩

/-- Counterexample to C8 as stated: on a remote close, the part_004 handler
(`onclose`) only updates the status; with a source still scheduled (`stLive`),
no teardown runs, no `stop()` is issued, and the resources are untouched. -/
theorem c8_counterexample :
    handleExit stLive ExitEvent.remoteClose = (stLive, []) ∧
    stLive.sources = [7] ∧
    ReleaseAction.stopSource 7 ∉ (handleExit stLive ExitEvent.remoteClose).2 := by
  decide

/-- C8 (amended): on user-initiated stop and on transport error the single
teardown routine `stopSession` runs, explicitly stops every
scheduled-but-unplayed source, and clears the source set; the remote-close
path of part_004 does not run it. -/
theorem c8_teardown_on_stop_and_error :
    ∀ (st : SessionRes) (e : ExitEvent), e ≠ ExitEvent.remoteClose →
      handleExit st e = stopSession st ∧
      (∀ h ∈ st.sources, ReleaseAction.stopSource h ∈ (handleExit st e).2) ∧
      (handleExit st e).1.sources = [] := by
  intro st e he
  cases e with
  | remoteClose => exact absurd rfl he
  | userStop =>
    refine ⟨rfl, ?_, rfl⟩
    intro h hh
    simp only [handleExit, stopSession]
    exact List.mem_append_right _ (List.mem_map_of_mem _ hh)
  | transportError =>
    refine ⟨rfl, ?_, rfl⟩
    intro h hh
    simp only [handleExit, stopSession]
    exact List.mem_append_right _ (List.mem_map_of_mem _ hh)

/-- Witness for C8 (amended) at the concrete live state and the user-stop
event. -/
theorem c8_witness :
    handleExit stLive ExitEvent.userStop = stopSession stLive ∧
    (∀ h ∈ stLive.sources,
      ReleaseAction.stopSource h ∈ (handleExit stLive ExitEvent.userStop).2) ∧
    (handleExit stLive ExitEvent.userStop).1.sources = [] :=
  c8_teardown_on_stop_and_error stLive ExitEvent.userStop (by decide)

/-- C10: the client `listEvents` never throws and returns the empty array on
every failure path (network error, non-OK HTTP status, body that fails to
parse, body without an `events` field), and the events array otherwise. -/
theorem c10_listEvents_total :
    (∀ m, BackendCalendar.listEvents (BackendCalendar.FetchOutcome.networkError m) = []) ∧
    (∀ jsonError events,
      BackendCalendar.listEvents
        (BackendCalendar.FetchOutcome.response false jsonError events) = []) ∧
    (∀ m events,
      BackendCalendar.listEvents
        (BackendCalendar.FetchOutcome.response true (some m) events) = []) ∧
    BackendCalendar.listEvents (BackendCalendar.FetchOutcome.response true none none) = [] ∧
    (∀ evs,
      BackendCalendar.listEvents
        (BackendCalendar.FetchOutcome.response true none (some evs)) = evs) ∧
    (∀ o m, BackendCalendar.listEventsTry o = Except.error m →
      BackendCalendar.listEvents o = []) := by
  refine ⟨fun m => rfl, fun j e => rfl, fun m e => rfl, rfl, fun evs => rfl, ?_⟩
  intro o m h
  simp [BackendCalendar.listEvents, h]

/-- Witness for C10 at a concrete failed fetch. -/
theorem c10_witness :
    BackendCalendar.listEvents (BackendCalendar.FetchOutcome.networkError "boom") = [] :=
  c10_listEvents_total.2.2.2.2.2 (BackendCalendar.FetchOutcome.networkError "boom")
    "boom" rfl

/-- C2: the `toolCall` handler sends exactly one tool result per function
call, in order, tagged with that call's id and name, on every mode and code
path; and any exception escaping the real-mode branch (in particular a
Calendar Service exception) is caught and converted to
an error-message object rather than propagating. -/
theorem c2_tool_resolution :
    (∀ mode connected env fcs,
      ((onToolCallMessage mode connected env fcs).1.map SentToolResult.id) =
          fcs.map FunctionCall.id ∧
      ((onToolCallMessage mode connected env fcs).1.map SentToolResult.name) =
          fcs.map FunctionCall.name) ∧
    (∀ connected env name args m calls,
      runToolReal connected env name args = (Except.error m, calls) →
      handleFunctionCall Mode.real connected env name args =
        (ToolResponse.errorMsg (if m = "" then "Tool failed" else m), calls)) := by
  constructor
  · intro mode connected env fcs
    induction fcs with
    | nil => exact ⟨rfl, rfl⟩
    | cons fc rest ih => simp [onToolCallMessage, ih.1, ih.2]
  · intro connected env name args m calls h
    simp [handleFunctionCall, h]

/-- Witness for C2: a Calendar Service exception "boom" on a complete valid
schedule request is turned into the error-message result. -/
theorem c2_witness :
    handleFunctionCall Mode.real true envBoom "schedule_meeting" argsFull =
      (ToolResponse.errorMsg (if "boom" = "" then "Tool failed" else "boom"),
        [SvcCall.schedule
          { argsFull with
            attendeeEmail := some (normalizeEmail argsFull.attendeeEmail) }]) :=
  c2_tool_resolution.2 true envBoom "schedule_meeting" argsFull "boom"
    [SvcCall.schedule
      { argsFull with
        attendeeEmail := some (normalizeEmail argsFull.attendeeEmail) }] rfl

/-- Counterexample to C3 as stated: in sandbox mode, a `schedule_meeting`
invocation missing `attendeeEmail` returns the canned sandbox success, not
the missing-fields error result. -/
theorem c3_counterexample :
    pickMissingScheduleFields argsMissingEmail = ["attendeeEmail"] ∧
    handleFunctionCall Mode.sandbox true envOk "schedule_meeting" argsMissingEmail =
      (ToolResponse.sandboxBooking, []) ∧
    ToolResponse.sandboxBooking ≠
      ToolResponse.okFalseError "Missing required fields: attendeeEmail" := by
  refine ⟨rfl, rfl, by decide⟩

/-- C3 (amended): in real mode with the organizer calendar connected, a
`schedule_meeting` invocation missing required fields returns
the `ok: false` result naming exactly the missing fields (a field appears in
the list exactly when it is absent or empty, in the fixed order title,
attendeeEmail, startIso, endIso) with no Calendar Service call; in sandbox
mode the same invocation instead returns the canned sandbox success. -/
theorem c3_missing_fields_real_mode :
    (∀ env args, pickMissingScheduleFields args ≠ [] →
      handleFunctionCall Mode.real true env "schedule_meeting" args =
        (ToolResponse.okFalseError
          ("Missing required fields: " ++
            String.intercalate ", " (pickMissingScheduleFields args)), [])) ∧
    (∀ args,
      ("title" ∈ pickMissingScheduleFields args ↔ jsFalsy args.title = true) ∧
      ("attendeeEmail" ∈ pickMissingScheduleFields args ↔
        jsFalsy args.attendeeEmail = true) ∧
      ("startIso" ∈ pickMissingScheduleFields args ↔ jsFalsy args.startIso = true) ∧
      ("endIso" ∈ pickMissingScheduleFields args ↔ jsFalsy args.endIso = true)) ∧
    (∀ connected env args,
      handleFunctionCall Mode.sandbox connected env "schedule_meeting" args =
        (ToolResponse.sandboxBooking, [])) := by
  refine ⟨?_, ?_, fun connected env args => rfl⟩
  · intro env args h
    simp [handleFunctionCall, runToolReal, h]
  · intro args
    cases h1 : jsFalsy args.title <;> cases h2 : jsFalsy args.attendeeEmail <;>
      cases h3 : jsFalsy args.startIso <;> cases h4 : jsFalsy args.endIso <;>
      simp only [pickMissingScheduleFields, h1, h2, h3, h4] <;> decide

/-- Witness for C3 (amended) at the concrete missing-email arguments. -/
theorem c3_witness :
    handleFunctionCall Mode.real true envOk "schedule_meeting" argsMissingEmail =
      (ToolResponse.okFalseError
        ("Missing required fields: " ++
          String.intercalate ", " (pickMissingScheduleFields argsMissingEmail)),
        []) :=
  c3_missing_fields_real_mode.1 envOk argsMissingEmail (by decide)

/-- C4: spoken-email normalization turns "vik at example dot com" into
"vik@example.com", which passes the email-shape validation; "not an email"
normalizes to "notanemail", which fails it, and the real-mode dispatcher then
returns the please-repeat-slowly error without calling the Calendar Service;
and no normalized email ever contains whitespace. -/
theorem c4_email_normalization :
    normalizeEmail (some "vik at example dot com") = "vik@example.com" ∧
    isValidEmail "vik@example.com" = true ∧
    normalizeEmail (some "not an email") = "notanemail" ∧
    isValidEmail (normalizeEmail (some "not an email")) = false ∧
    (∀ env, handleFunctionCall Mode.real true env "schedule_meeting" argsBadEmail =
      (ToolResponse.okFalseError
        "Invalid email. Please repeat slowly like: name at domain dot com.", [])) ∧
    (∀ raw, ((normalizeEmail raw).toList.all (fun c => !(isJsSpace c))) = true) := by
  refine ⟨by decide, by decide, by decide, by decide, fun env => rfl, ?_⟩
  intro raw
  rw [List.all_eq_true]
  intro c hc
  simp only [normalizeEmail, String.toList] at hc
  replace hc := List.mem_reverse.mp hc
  replace hc := (List.dropWhile_sublist _).subset hc
  replace hc := List.mem_reverse.mp hc
  replace hc := (List.dropWhile_sublist _).subset hc
  exact (List.mem_filter.mp hc).2

/-- C6: while the mode is sandbox no tool invocation reaches the Calendar
Service and the two declared tools return their canned success results; the
same `schedule_meeting` invocation with complete valid arguments in real
mode (organizer connected) performs exactly the external schedule call. -/
theorem c6_sandbox_isolation :
    (∀ connected env name args,
      (handleFunctionCall Mode.sandbox connected env name args).2 = []) ∧
    (∀ connected env args,
      handleFunctionCall Mode.sandbox connected env "check_availability" args =
        (ToolResponse.sandboxFreeBusy, [])) ∧
    (∀ connected env args,
      handleFunctionCall Mode.sandbox connected env "schedule_meeting" args =
        (ToolResponse.sandboxBooking, [])) ∧
    (∀ env args, pickMissingScheduleFields args = [] →
      isValidEmail (normalizeEmail args.attendeeEmail) = true →
      (handleFunctionCall Mode.real true env "schedule_meeting" args).2 =
        [SvcCall.schedule
          { args with attendeeEmail := some (normalizeEmail args.attendeeEmail) }]) := by
  refine ⟨fun _ _ _ _ => rfl, fun _ _ _ => rfl, fun _ _ _ => rfl, ?_⟩
  intro env args h1 h2
  obtain ⟨fb, sched⟩ := env
  cases sched <;> simp [handleFunctionCall, runToolReal, h1, h2]

/-- Witness for C6 at the complete valid arguments and a succeeding backend. -/
theorem c6_witness :
    (handleFunctionCall Mode.real true envOk "schedule_meeting" argsFull).2 =
      [SvcCall.schedule
        { argsFull with
          attendeeEmail := some (normalizeEmail argsFull.attendeeEmail) }] :=
  c6_sandbox_isolation.2.2.2 envOk argsFull (by decide) (by decide)

/-- Counterexample to C5 as stated: the client `BackendCalendar.schedule`
turns the server's conflict response (which carries no `error` field) into
the same thrown generic "Scheduling failed" error it produces for a
reason-less failure response, so the conflict is not surfaced to the caller
distinctly from a generic failure. -/
theorem c5_counterexample :
    BackendCalendar.schedule (serverResultToHttp (ServerScheduleResult.conflict busy1)) =
      Except.error "Scheduling failed" ∧
    BackendCalendar.schedule { ok := false } = Except.error "Scheduling failed" :=
  ⟨rfl, rfl⟩

/-- C5 (amended): when the free/busy check of the requested window returns a
nonempty busy list, the server `scheduleMeeting` short-circuits to the
conflict result without inserting an event; the client `BackendCalendar.
schedule` however surfaces that response as the thrown generic
"Scheduling failed" error, not as a distinct conflict value. -/
theorem c5_conflict_shortcircuit :
    ∀ (busy : List BusySlot) (eid hl ml : Option String), busy ≠ [] →
      scheduleMeeting busy eid hl ml = (ServerScheduleResult.conflict busy, false) ∧
      BackendCalendar.schedule (serverResultToHttp (ServerScheduleResult.conflict busy)) =
        Except.error "Scheduling failed" := by
  intro busy eid hl ml h
  cases busy with
  | nil => exact absurd rfl h
  | cons b bs => exact ⟨rfl, rfl⟩

/-- Witness for C5 (amended) at the concrete nonempty busy list. -/
theorem c5_witness :
    scheduleMeeting busy1 (some "id") none none =
      (ServerScheduleResult.conflict busy1, false) ∧
    BackendCalendar.schedule (serverResultToHttp (ServerScheduleResult.conflict busy1)) =
      Except.error "Scheduling failed" :=
  c5_conflict_shortcircuit busy1 (some "id") none none (by decide)

/-- Helper: if every status from index `i` up to the 40-poll bound is false
and at most `n` polls remain, the loop ends in the timeout error. -/
lemma pollLoop_timeout_aux (statuses : Nat → Bool) :
    ∀ n i, 40 ≤ i + n → (∀ j, i ≤ j → j < 40 → statuses j = false) →
      pollLoop statuses (1500 * i) i = Except.error pollTimeoutMsg := by
  intro n
  induction n with
  | zero =>
    intro i hge _
    rw [pollLoop, dif_neg (by omega : ¬ (1500 * i < 60000))]
  | succ n ih =>
    intro i hge hfalse
    by_cases hi : i < 40
    · rw [pollLoop, dif_pos (by omega : 1500 * i < 60000), hfalse i le_rfl hi]
      simp only [Bool.false_eq_true, if_false]
      rw [show 1500 * i + 1500 = 1500 * (i + 1) by ring]
      exact ih (i + 1) (by omega) (fun j hj hj40 => hfalse j (by omega) hj40)
    · rw [pollLoop, dif_neg (by omega : ¬ (1500 * i < 60000))]

/-- Helper: if the first true status after index `i` is at `i + n`, within the
40-poll bound, the loop returns it. -/
lemma pollLoop_success_aux (statuses : Nat → Bool) :
    ∀ n i, (∀ j, i ≤ j → j < i + n → statuses j = false) →
      statuses (i + n) = true → i + n < 40 →
      pollLoop statuses (1500 * i) i = Except.ok (i + n) := by
  intro n
  induction n with
  | zero =>
    intro i _ htrue _
    rw [pollLoop, dif_pos (by omega : 1500 * i < 60000)]
    have hi : statuses i = true := by simpa using htrue
    simp [hi]
  | succ n ih =>
    intro i hfalse htrue hlt
    rw [pollLoop, dif_pos (by omega : 1500 * i < 60000),
      hfalse i le_rfl (by omega)]
    simp only [Bool.false_eq_true, if_false]
    rw [show 1500 * i + 1500 = 1500 * (i + 1) by ring]
    have h1 : i + 1 + n = i + (n + 1) := by omega
    have := ih (i + 1) (fun j hj hj' => hfalse j (by omega) (by omega))
      (by rw [h1]; exact htrue) (by omega)
    rw [this, h1]

/-- Helper: whenever the loop reports success, the successful poll index is
below the 40-poll bound. -/
lemma pollLoop_ok_bound_aux (statuses : Nat → Bool) :
    ∀ n i k, 40 ≤ i + n → pollLoop statuses (1500 * i) i = Except.ok k →
      i ≤ k ∧ k < 40 := by
  intro n
  induction n with
  | zero =>
    intro i k hge h
    rw [pollLoop, dif_neg (by omega : ¬ (1500 * i < 60000))] at h
    exact absurd h (by simp)
  | succ n ih =>
    intro i k hge h
    by_cases hi : i < 40
    · rw [pollLoop, dif_pos (by omega : 1500 * i < 60000)] at h
      by_cases hs : statuses i
      · rw [if_pos hs] at h
        obtain rfl : i = k := by injection h
        exact ⟨le_rfl, hi⟩
      · rw [if_neg hs,
          show 1500 * i + 1500 = 1500 * (i + 1) by ring] at h
        have := ih (i + 1) k (by omega) h
        exact ⟨by omega, this.2⟩
    · rw [pollLoop, dif_neg (by omega : ¬ (1500 * i < 60000))] at h
      exact absurd h (by simp)

/-- C9: the OAuth-completion poll loop (one 1.5 s sleep per iteration, 60 s
budget, hence at most 40 polls) terminates for every outcome: it returns
success at the first poll whose status reports connected within the bound,
otherwise it raises the timeout error which `connectOrganizerCalendar`
surfaces to the user, and a successful poll index can never reach beyond the
bound. -/
theorem c9_oauth_poll :
    (∀ (statuses : Nat → Bool) (k : Nat), k < 40 → statuses k = true →
      (∀ j, j < k → statuses j = false) →
      pollLoop statuses 0 0 = Except.ok k ∧
      connectOrganizerCalendar statuses = ConnectOutcome.connected) ∧
    (∀ statuses : Nat → Bool, (∀ j, j < 40 → statuses j = false) →
      pollLoop statuses 0 0 = Except.error pollTimeoutMsg ∧
      connectOrganizerCalendar statuses = ConnectOutcome.errorShown pollTimeoutMsg) ∧
    (∀ (statuses : Nat → Bool) (k : Nat),
      pollLoop statuses 0 0 = Except.ok k → k < 40) := by
  refine ⟨?_, ?_, ?_⟩
  · intro statuses k hk htrue hfalse
    have h0 : pollLoop statuses (1500 * 0) 0 = Except.ok (0 + k) :=
      pollLoop_success_aux statuses k 0
        (fun j _ hj' => hfalse j (by omega)) (by simpa using htrue) (by omega)
    have h0' : pollLoop statuses 0 0 = Except.ok k := by simpa using h0
    exact ⟨h0', by simp [connectOrganizerCalendar, h0']⟩
  · intro statuses hfalse
    have h0 : pollLoop statuses (1500 * 0) 0 = Except.error pollTimeoutMsg :=
      pollLoop_timeout_aux statuses 40 0 (by omega) (fun j _ hj40 => hfalse j hj40)
    have h0' : pollLoop statuses 0 0 = Except.error pollTimeoutMsg := by
      simpa using h0
    exact ⟨h0', by simp [connectOrganizerCalendar, h0']⟩
  · intro statuses k h
    exact (pollLoop_ok_bound_aux statuses 40 0 k (by omega) (by simpa using h)).2

/-- Witness for C9: the backend first reports connected at the third poll. -/
theorem c9_witness :
    pollLoop (fun j => j == 2) 0 0 = Except.ok 2 ∧
    connectOrganizerCalendar (fun j => j == 2) = ConnectOutcome.connected :=
  c9_oauth_poll.1 (fun j => j == 2) 2 (by decide) (by decide) (by decide)

end Vikara
